import Mathlib

/-!
Shallow embedding of `src/railway-deployment/local-poc/code-test.py`
(`verify_dependencies`), a dependency smoke test that performs a network
check, a date-library check and a stdlib check, and aggregates the three
results into one JSON-shaped report.

Modelling choices:
* Python `dict`s are insertion-ordered association lists over `String`.
* JSON values are the inductive `J`.
* Python `float`s are modelled exactly as dyadic rationals `Dy`
  (a value `m * 2 ^ e`, kept with a 53-bit significand by `roundD`,
  which performs IEEE-754 binary64 round-to-nearest, ties-to-even).
* Exceptions are modelled with `Except String`; ambient effects
  (the HTTP response, clock readings, random draws, and arbitrary
  runtime exceptions raised inside a `try` block) are fields of the
  `Ambient` record, so `verify_dependencies` is a pure function of it.
-/

/-- A binary64 value, exactly: the dyadic rational `m * 2 ^ e`. -/
structure Dy where
  m : ℤ
  e : ℤ
deriving DecidableEq

def twoPow52 : ℤ := 4503599627370496

def twoPow53 : ℤ := 9007199254740992

/-- Scale a positive fraction `n / d` (times `2 ^ e`) so that the
integer part of `n / d` lands in `[2 ^ 52, 2 ^ 53)`; fuel-bounded
structural recursion so the kernel can evaluate it. -/
def scal : ℕ → ℤ → ℤ → ℤ → ℤ × ℤ × ℤ
  | 0, n, d, e => (n, d, e)
  | f+1, n, d, e =>
    if n < d * twoPow52 then scal f (n * 2) d (e - 1)
    else if d * twoPow53 ≤ n then scal f n (d * 2) (e + 1)
    else (n, d, e)

/-- Round the positive rational `(num / den) * 2 ^ e` to the nearest
binary64 value, ties to even. -/
def roundDpos (num den e : ℤ) : Dy :=
  let s := scal 400 num den e
  let n := s.1
  let d := s.2.1
  let e2 := s.2.2
  let q := n / d
  let r := n % d
  let m := if 2 * r < d then q
           else if d < 2 * r then q + 1
           else if q % 2 = 0 then q else q + 1
  if m = twoPow53 then ⟨twoPow52, e2 + 1⟩ else ⟨m, e2⟩

/-- Round the rational `(num / den) * 2 ^ e` (with `den > 0`) to the
nearest binary64 value, ties to even. -/
def roundD (num den e : ℤ) : Dy :=
  if num = 0 then ⟨0, 0⟩
  else if num < 0 then
    let p := roundDpos (-num) den e
    ⟨-p.m, p.e⟩
  else roundDpos num den e

/-- binary64 multiplication: exact product, then one rounding. -/
def dmul (a b : Dy) : Dy := roundD (a.m * b.m) 1 (a.e + b.e)

/-- `math.pi`: the binary64 value nearest to π (the argument of `roundD`
is π to 40 decimal digits, well within half an ulp of π). -/
def piD : Dy := roundD 31415926535897932384626433832795028841972 10000000000000000000000000000000000000000 0

/-- `math.pow` restricted to the small integer arguments the source uses
(`math.pow(5, 2)`), where the correctly-rounded IEEE pow is exact. -/
def mathPowInt (b : ℤ) (e : ℕ) : Dy := roundD (b ^ e) 1 0

def isqrtGo : ℕ → ℕ → ℕ → ℕ
  | 0, _, k => k
  | f+1, n, k => if (k + 1) * (k + 1) ≤ n then isqrtGo f n (k + 1) else k

/-- Integer square root by bounded search (exact on perfect squares). -/
def isqrt (n : ℕ) : ℕ := isqrtGo n n 0

/-- `math.sqrt` restricted to perfect-square integer arguments
(the source uses `math.sqrt(144)`), where the correctly-rounded
IEEE sqrt returns the exact root. -/
def mathSqrtInt (n : ℕ) : Dy := roundD (isqrt n) 1 0

/-- `⌊a / b⌋`-style division rounding to nearest, ties to even
(`b > 0`); used for decimal rounding of dyadic values. -/
def halfEvenDiv (a b : ℤ) : ℤ :=
  let q := Int.fdiv a b
  let r := a - q * b
  if 2 * r < b then q
  else if b < 2 * r then q + 1
  else if q % 2 = 0 then q else q + 1

/-- Python `round(x, n)` on a float: the binary64 value nearest to the
correctly rounded (ties-to-even) `n`-decimal-digit value of `x`. -/
def pyRound (x : Dy) (n : ℕ) : Dy :=
  let p := x.m * 10 ^ n
  let t : ℤ := if 0 ≤ x.e then p * 2 ^ x.e.toNat else halfEvenDiv p (2 ^ (-x.e).toNat)
  roundD t (10 ^ n) 0

/-- The binary64 value of a Python float literal `num / den`
(e.g. `litD 7854 100` is the literal `78.54`). -/
def litD (num den : ℤ) : Dy := roundD num den 0

/-- JSON-shaped Python values (the subset the program manipulates). -/
inductive J where
  | null : J
  | s : String → J
  | i : ℤ → J
  | f : Dy → J
  | obj : List (String × J) → J

/-- Python dict lookup `d[k]` as an `Option` (insertion-ordered assoc list). -/
def dget : List (String × J) → String → Option J
  | [], _ => none
  | (k1, v1) :: rest, k => if k1 = k then some v1 else dget rest k

/-- Python dict assignment `d[k] = v`: update in place, else append. -/
def dset : List (String × J) → String → J → List (String × J)
  | [], k, v => [(k, v)]
  | (k1, v1) :: rest, k, v =>
    if k1 = k then (k1, v) :: rest else (k1, v1) :: dset rest k v

/-- The key list of a dict, in insertion order. -/
def keys (d : List (String × J)) : List String := d.map Prod.fst

/-- Python subscript `value[k]`: `KeyError` (whose `str` is the quoted
key) on a missing key, `TypeError` when the value is not a dict. -/
def jix : J → String → Except String J
  | J.obj d, k =>
    match dget d k with
    | some v => .ok v
    | none => .error ("'" ++ k ++ "'")
  | _, _ => .error "value is not subscriptable"

/-- Python `dict.get(k)`: `none` when missing or not a dict. -/
def pGet (j : J) (k : String) : Option J :=
  match j with
  | J.obj d => dget d k
  | _ => none

/-- The test `p.get('installed') == '✅'` from the summary step. -/
def isCheck (o : Option J) : Bool :=
  match o with
  | some (J.s t) => t == "✅"
  | _ => false

def digitChar (n : ℕ) : Char := Char.ofNat (48 + n)

def natDigitsGo : ℕ → ℕ → List Char → List Char
  | 0, _, acc => acc
  | f+1, n, acc =>
    if n < 10 then digitChar n :: acc
    else natDigitsGo f (n / 10) (digitChar (n % 10) :: acc)

/-- Decimal digits of a natural number, most significant first. -/
def natDigits (n : ℕ) : List Char := natDigitsGo 40 n []

def natStr (n : ℕ) : String := ⟨natDigits n⟩

/-- Python `str` of an integer. -/
def intStr (z : ℤ) : String :=
  if z < 0 then "-" ++ natStr z.natAbs else natStr z.natAbs

/-- Insert a comma after every third digit; input is the digit list
least significant first, `k` counts digits already consumed. -/
def commaGo : List Char → ℕ → List Char
  | [], _ => []
  | [c], _ => [c]
  | c :: rest, k =>
    if (k + 1) % 3 = 0 then c :: ',' :: commaGo rest (k + 1)
    else c :: commaGo rest (k + 1)

def natComma (n : ℕ) : String := ⟨(commaGo (natDigits n).reverse 0).reverse⟩

/-- Python `f"{z:,}"` on an integer: thousands separators. -/
def intComma (z : ℤ) : String :=
  if z < 0 then "-" ++ natComma z.natAbs else natComma z.natAbs

/-- Python `f"{v:,}"` on a JSON field: formats integers with thousands
separators; a non-integer JSON value (e.g. a string) raises
`ValueError` inside the f-string. -/
def commaFmt : J → Except String String
  | J.i n => .ok (intComma n)
  | _ => .error "Cannot specify ',' with 's'."

/-- A Python `datetime.datetime`: calendar fields plus an optional
fixed UTC offset in minutes (`none` = naive, as `datetime.now()`). -/
structure DT where
  year : ℕ
  month : ℕ
  day : ℕ
  hour : ℕ
  minute : ℕ
  second : ℕ
  usec : ℕ
  tz : Option ℤ
deriving DecidableEq

/-- Gregorian leap year. -/
def isLeap (y : ℤ) : Bool :=
  y % 4 = 0 && (y % 100 ≠ 0 || y % 400 = 0)

/-- Days in a month (month already normalised to 1..12). -/
def daysInMonth (y : ℤ) (m : ℤ) : ℤ :=
  if m = 2 then (if isLeap y then 29 else 28)
  else if m = 4 || m = 6 || m = 9 || m = 11 then 30
  else 31

/-- Days since 1970-01-01 of a Gregorian civil date
(Hinnant's days-from-civil algorithm, floor division throughout). -/
def daysFromCivil (y m d : ℤ) : ℤ :=
  let y2 := if m ≤ 2 then y - 1 else y
  let era := Int.fdiv y2 400
  let yoe := y2 - era * 400
  let mp := if 2 < m then m - 3 else m + 9
  let doy := Int.fdiv (153 * mp + 2) 5 + d - 1
  let doe := yoe * 365 + Int.fdiv yoe 4 - Int.fdiv yoe 100 + doy
  era * 146097 + doe - 719468

/-- Gregorian civil date from days since 1970-01-01
(Hinnant's civil-from-days algorithm). -/
def civilFromDays (z0 : ℤ) : ℤ × ℤ × ℤ :=
  let z := z0 + 719468
  let era := Int.fdiv z 146097
  let doe := z - era * 146097
  let yoe := Int.fdiv (doe - Int.fdiv doe 1460 + Int.fdiv doe 36524 - Int.fdiv doe 146096) 365
  let y := yoe + era * 400
  let doy := doe - (365 * yoe + Int.fdiv yoe 4 - Int.fdiv yoe 100)
  let mp := Int.fdiv (5 * doy + 2) 153
  let d := doy - Int.fdiv (153 * mp + 2) 5 + 1
  let m := if mp < 10 then mp + 3 else mp - 9
  (if m ≤ 2 then y + 1 else y, m, d)

/-- `dt + timedelta(days = n)`: raises
`OverflowError('date value out of range')` outside years 1..9999. -/
def addDays (dt : DT) (n : ℤ) : Except String DT :=
  let z := daysFromCivil dt.year dt.month dt.day + n
  let c := civilFromDays z
  if 1 ≤ c.1 ∧ c.1 ≤ 9999 then
    .ok { dt with year := c.1.toNat, month := c.2.1.toNat, day := c.2.2.toNat }
  else .error "date value out of range"

/-- `dt + relativedelta(months = mo, days = da)`: add `mo` months with
the day clamped to the target month's length (a `ValueError` from
`replace` if the year leaves 1..9999), then add `da` days. -/
def relAdd (dt : DT) (mo da : ℤ) : Except String DT :=
  let t := (dt.month : ℤ) - 1 + mo
  let y := (dt.year : ℤ) + Int.fdiv t 12
  let m := Int.emod t 12 + 1
  let d := min (dt.day : ℤ) (daysInMonth y m)
  if 1 ≤ y ∧ y ≤ 9999 then
    addDays { dt with year := y.toNat, month := m.toNat, day := d.toNat } da
  else .error "year is out of range"

/-- Zero-padded decimal rendering of a natural number. -/
def padZ (w : ℕ) (n : ℕ) : String :=
  let s := natDigits n
  ⟨List.replicate (w - s.length) '0' ++ s⟩

/-- `datetime.isoformat()`: `YYYY-MM-DDTHH:MM:SS`, the microseconds
when nonzero, and the UTC offset when the value is aware. -/
def isoformat (dt : DT) : String :=
  padZ 4 dt.year ++ "-" ++ padZ 2 dt.month ++ "-" ++ padZ 2 dt.day ++ "T" ++
  padZ 2 dt.hour ++ ":" ++ padZ 2 dt.minute ++ ":" ++ padZ 2 dt.second ++
  (if dt.usec = 0 then "" else "." ++ padZ 6 dt.usec) ++
  (match dt.tz with
   | none => ""
   | some off =>
     (if off < 0 then "-" else "+") ++
     padZ 2 (off.natAbs / 60) ++ ":" ++ padZ 2 (off.natAbs % 60))

/-- `dt.strftime('%Y-%m-%d')`. -/
def strftimeYMD (dt : DT) : String :=
  padZ 4 dt.year ++ "-" ++ padZ 2 dt.month ++ "-" ++ padZ 2 dt.day

def isDigit (c : Char) : Bool := 48 ≤ c.toNat && c.toNat ≤ 57

def digVal (c : Char) : ℕ := c.toNat - 48

/-- Read exactly `n` decimal digits from the front of a char list. -/
def takeDigits : ℕ → List Char → Option (ℕ × List Char)
  | 0, l => some (0, l)
  | _+1, [] => none
  | n+1, c :: rest =>
    if isDigit c then
      match takeDigits n rest with
      | some (v, l2) => some (digVal c * 10 ^ n + v, l2)
      | none => none
    else none

/-- Read one to `n` decimal digits from the front of a char list. -/
def takeDigitsUpTo : ℕ → List Char → ℕ → Option (ℕ × List Char)
  | _, [], acc => some (acc, [])
  | 0, l, acc => some (acc, l)
  | n+1, c :: rest, acc =>
    if isDigit c then takeDigitsUpTo n rest (acc * 10 + digVal c)
    else some (acc, c :: rest)

def expectChar (c : Char) : List Char → Option (List Char)
  | [] => none
  | c2 :: rest => if c2 = c then some rest else none

/-- Parse `YYYY-MM-DDTHH:MM:SSZ` (the `Z` suffix yields `tzutc`,
offset 0); models the ISO branch of `dateutil.parser.parse`. -/
def parseIsoZ (l : List Char) : Option DT :=
  match takeDigits 4 l with
  | none => none
  | some (y, l1) =>
  match expectChar '-' l1 with
  | none => none
  | some l2 =>
  match takeDigits 2 l2 with
  | none => none
  | some (mo, l3) =>
  match expectChar '-' l3 with
  | none => none
  | some l4 =>
  match takeDigits 2 l4 with
  | none => none
  | some (d, l5) =>
  match expectChar 'T' l5 with
  | none => none
  | some l6 =>
  match takeDigits 2 l6 with
  | none => none
  | some (h, l7) =>
  match expectChar ':' l7 with
  | none => none
  | some l8 =>
  match takeDigits 2 l8 with
  | none => none
  | some (mi, l9) =>
  match expectChar ':' l9 with
  | none => none
  | some l10 =>
  match takeDigits 2 l10 with
  | none => none
  | some (se, l11) =>
  match expectChar 'Z' l11 with
  | none => none
  | some l12 =>
  if l12 = [] then some ⟨y, mo, d, h, mi, se, 0, some 0⟩ else none

def monthNames : List (String × ℕ) :=
  [("January", 1), ("February", 2), ("March", 3), ("April", 4),
   ("May", 5), ("June", 6), ("July", 7), ("August", 8),
   ("September", 9), ("October", 10), ("November", 11), ("December", 12)]

def dropPfx : List Char → List Char → Option (List Char)
  | [], l => some l
  | _ :: _, [] => none
  | p :: ps, c :: cs => if p = c then dropPfx ps cs else none

def matchMonth (l : List Char) : List (String × ℕ) → Option (ℕ × List Char)
  | [] => none
  | (nm, v) :: rest =>
    match dropPfx nm.data l with
    | some l2 => some (v, l2)
    | none => matchMonth l rest

/-- Parse `"<MonthName> <D>, <YYYY>"` into a naive midnight datetime;
models the natural-language branch of `dateutil.parser.parse`. -/
def parseNatural (l : List Char) : Option DT :=
  match matchMonth l monthNames with
  | none => none
  | some (mo, l1) =>
  match expectChar ' ' l1 with
  | none => none
  | some l2 =>
  match takeDigitsUpTo 2 l2 0 with
  | none => none
  | some (d, l3) =>
  match expectChar ',' l3 with
  | none => none
  | some l4 =>
  match expectChar ' ' l4 with
  | none => none
  | some l5 =>
  match takeDigits 4 l5 with
  | none => none
  | some (y, l6) =>
  if l6 = [] then some ⟨y, mo, d, 0, 0, 0, 0, none⟩ else none

/-- `dateutil.parser.parse`, modelled for the two formats the source
feeds it (an ISO timestamp with a `Z` suffix, and a
`"Month Day, Year"` string); anything else raises `ParserError`. -/
def parseDU (s : String) : Except String DT :=
  match parseIsoZ s.data with
  | some dt => .ok dt
  | none =>
  match parseNatural s.data with
  | some dt => .ok dt
  | none => .error ("Unknown string format: " ++ s)

def lbrace : Char := Char.ofNat 123

def rbrace : Char := Char.ofNat 125

/-- String escaping of `json.dumps` (the quote and backslash cases;
the fixed strings the source serialises contain neither). -/
def escStr (s : String) : String :=
  ⟨s.data.foldr (fun c acc =>
    if c = '"' then '\\' :: '"' :: acc
    else if c = '\\' then '\\' :: '\\' :: acc
    else c :: acc) []⟩

mutual

def dumpsGo : ℕ → J → String
  | 0, _ => ""
  | _+1, J.null => "null"
  | _+1, J.s t => "\"" ++ escStr t ++ "\""
  | _+1, J.i n => intStr n
  | _+1, J.f _ => ""
  | f+1, J.obj d => "\x7b" ++ dumpsObjGo f d ++ "\x7d"

def dumpsObjGo : ℕ → List (String × J) → String
  | 0, _ => ""
  | _+1, [] => ""
  | f+1, (k, v) :: rest =>
    "\"" ++ escStr k ++ "\": " ++ dumpsGo f v ++
    (match rest with | [] => "" | _ => ", ") ++ dumpsObjGo f rest

end

/-- `json.dumps` with default separators (`", "` and `": "`); float
repr is not modelled because the source never serialises a float. -/
def dumps (j : J) : String := dumpsGo 100 j

def skipWs : List Char → List Char
  | [] => []
  | c :: rest =>
    if c = ' ' || c = '\t' || c = '\n' || c = '\r' then skipWs rest
    else c :: rest

def parseStrGo : ℕ → List Char → List Char → Option (String × List Char)
  | 0, _, _ => none
  | _+1, [], _ => none
  | f+1, c :: rest, acc =>
    if c = '"' then some (⟨acc.reverse⟩, rest)
    else if c = '\\' then
      match rest with
      | [] => none
      | e :: r2 => parseStrGo f r2 ((if e = 'n' then '\n' else e) :: acc)
    else parseStrGo f rest (c :: acc)

def parseNumGo : ℕ → List Char → ℕ → ℕ × List Char
  | 0, l, acc => (acc, l)
  | f+1, l, acc =>
    match l with
    | [] => (acc, [])
    | c :: rest =>
      if isDigit c then parseNumGo f rest (acc * 10 + digVal c)
      else (acc, c :: rest)

mutual

/-- One `json.loads` value: objects, strings, integers and `null`
(the grammar subset the source round-trips). -/
def parseVal : ℕ → List Char → Option (J × List Char)
  | 0, _ => none
  | f+1, l =>
    match skipWs l with
    | [] => none
    | c :: rest =>
      if c = lbrace then parseObjBody f rest []
      else if c = '"' then
        match parseStrGo f rest [] with
        | some (t, l2) => some (J.s t, l2)
        | none => none
      else if c = '-' then
        match rest with
        | d :: r2 =>
          if isDigit d then
            let p := parseNumGo f r2 (digVal d)
            some (J.i (-(p.1 : ℤ)), p.2)
          else none
        | [] => none
      else if isDigit c then
        let p := parseNumGo f rest (digVal c)
        some (J.i (p.1 : ℤ), p.2)
      else if c = 'n' then
        match dropPfx ['u', 'l', 'l'] rest with
        | some l2 => some (J.null, l2)
        | none => none
      else none

def parseObjBody : ℕ → List Char → List (String × J) → Option (J × List Char)
  | 0, _, _ => none
  | f+1, l, acc =>
    match skipWs l with
    | [] => none
    | c :: rest =>
      if c = rbrace then some (J.obj acc.reverse, rest)
      else if c = '"' then
        match parseStrGo f rest [] with
        | none => none
        | some (k, l2) =>
        match skipWs l2 with
        | ':' :: l3 =>
          match parseVal f l3 with
          | none => none
          | some (v, l4) =>
          match skipWs l4 with
          | ',' :: l5 => parseObjBody f l5 ((k, v) :: acc)
          | c2 :: l5 => if c2 = rbrace then some (J.obj ((k, v) :: acc).reverse, l5) else none
          | [] => none
        | _ => none
      else none

end

/-- `json.loads` on the grammar subset above. -/
def loads (s : String) : Except String J :=
  match parseVal 100 s.data with
  | some (v, rest) => if skipWs rest = [] then .ok v else .error "Extra data"
  | none => .error "Expecting value"

/-- The fixed object `{'name': 'test', 'value': 42}` from the source. -/
def testData : J := J.obj [("name", J.s "test"), ("value", J.i 42)]

/-- `random.randint(a, b)`: the underlying uniform draw `r` of the
random source reduced into the inclusive range `[a, b]`. -/
def randint (a b : ℤ) (r : ℕ) : ℤ := a + (r : ℤ) % (b - a + 1)

/-- `random.choice(l)`: the underlying uniform draw `r` reduced to an
index into `l`. -/
def pychoice (l : List String) (r : ℕ) : String := l.getD (r % l.length) ""

/-- The `requests.get(...)` outcome: a status code plus the result of
`response.json()` (which itself may raise on a malformed body). -/
structure Resp where
  status_code : ℤ
  body : Except String J

/-- All ambient inputs of one `verify_dependencies()` call: the
client library version string, the network outcome, the clock
readings in program order, the random draws, and — per `try` block —
an optional injected runtime exception (modelling exceptions such as
`MemoryError` that may be raised at any point of a section body). -/
structure Ambient where
  reqVersion : String
  aExc : Option String
  net : Except String Resp
  bExc : Option String
  nowB1 : DT
  nowB2 : DT
  nowB3 : DT
  cExc : Option String
  r1 : ℕ
  r2 : ℕ
  nowC1 : DT
  nowC2 : DT
  nowS : DT

/-- The success record of the `requests` section (lines 20-30). -/
def mkReqRec (ver : String) (code : ℤ) (nm : J) (stars forks : String) (lang : J) : J :=
  J.obj [("version", J.s ver),
         ("test", J.s ("GitHub API status: " ++ intStr code)),
         ("repoData", J.obj [("name", nm), ("stars", J.s stars),
                             ("forks", J.s forks), ("language", lang)]),
         ("installed", J.s "✅")]

/-- The success record of the `dateutil` section (lines 44-56). -/
def mkDateRec (iso nat cur fut past : String) : J :=
  J.obj [("test", J.s "Date parsing and manipulation"),
         ("parsedDates", J.obj [("iso", J.s iso), ("natural", J.s nat),
                                ("currentTime", J.s cur)]),
         ("calculations", J.obj [("in3Months15Days", J.s fut),
                                 ("30DaysAgo", J.s past)]),
         ("installed", J.s "✅")]

/-- The success record of the stdlib section (lines 75-93). -/
def mkStdRec (area sq pv : Dy) (rn : ℤ) (rc ser : String) (des : J) (nowI today : String) : J :=
  J.obj [("math", J.obj [("circleArea", J.f area), ("sqrt144", J.f sq),
                         ("piValue", J.f pv)]),
         ("random", J.obj [("randomNumber", J.i rn), ("randomChoice", J.s rc)]),
         ("json", J.obj [("serialized", J.s ser), ("deserialized", des)]),
         ("datetime", J.obj [("now", J.s nowI), ("today", J.s today)])]

/-- The except-branch record of the two package sections. -/
def errRecP (m : String) : J := J.obj [("error", J.s m), ("installed", J.s "❌")]

/-- The except-branch record of the stdlib section (no installed flag). -/
def errRecT (m : String) : J := J.obj [("error", J.s m)]

/-- The body of the `try` block of Test 1 (lines 18-30): the GET
request, `response.json()`, the four field extractions with their
formatting, in evaluation order. -/
def stepA (amb : Ambient) : Except String J :=
  match amb.aExc with
  | some m => .error m
  | none =>
  match amb.net with
  | .error m => .error m
  | .ok resp =>
  match resp.body with
  | .error m => .error m
  | .ok repo =>
  match jix repo "name" with
  | .error m => .error m
  | .ok nm =>
  match jix repo "stargazers_count" with
  | .error m => .error m
  | .ok sc =>
  match commaFmt sc with
  | .error m => .error m
  | .ok stars =>
  match jix repo "forks_count" with
  | .error m => .error m
  | .ok fc =>
  match commaFmt fc with
  | .error m => .error m
  | .ok forks =>
  match jix repo "language" with
  | .error m => .error m
  | .ok lang => .ok (mkReqRec amb.reqVersion resp.status_code nm stars forks lang)

/-- The body of the `try` block of Test 2 (lines 37-56): the two
parses, the relativedelta and timedelta arithmetic, the record. -/
def stepB (amb : Ambient) : Except String J :=
  match amb.bExc with
  | some m => .error m
  | none =>
  match parseDU "2025-10-22T14:30:00Z" with
  | .error m => .error m
  | .ok iso_date =>
  match parseDU "October 22, 2025" with
  | .error m => .error m
  | .ok natural_date =>
  match relAdd amb.nowB1 3 15 with
  | .error m => .error m
  | .ok future_date =>
  match addDays amb.nowB2 (-30) with
  | .error m => .error m
  | .ok past_date =>
    .ok (mkDateRec (isoformat iso_date) (strftimeYMD natural_date)
          (isoformat amb.nowB3) (strftimeYMD future_date) (strftimeYMD past_date))

/-- The body of the `try` block of Test 3 (lines 62-93): math values,
random draws, the JSON round trip, the two timestamps. -/
def stepC (amb : Ambient) : Except String J :=
  match amb.cExc with
  | some m => .error m
  | none =>
  let circle_area := dmul piD (mathPowInt 5 2)
  let sqrt_result := mathSqrtInt 144
  let random_num := randint 1 100 amb.r1
  let random_choice := pychoice ["apple", "banana", "cherry"] amb.r2
  let json_string := dumps testData
  match loads json_string with
  | .error m => .error m
  | .ok json_parsed =>
    .ok (mkStdRec (pyRound circle_area 2) sqrt_result (pyRound piD 4)
          random_num random_choice json_string json_parsed
          (isoformat amb.nowC1) (strftimeYMD amb.nowC2))

/-- `try: ... except Exception as e: <handler>`. -/
def tryJ (b : Except String J) (h : String → J) : J :=
  match b with
  | .ok v => v
  | .error m => h m

/-- `d[k1][k2] = v` on a dict whose `k1` entry is a dict. -/
def dsetIn (d : List (String × J)) (k1 k2 : String) (v : J) : List (String × J) :=
  match dget d k1 with
  | some (J.obj inner) => dset d k1 (J.obj (dset inner k2 v))
  | _ => d

def statusMsg : String := "✅ ALL DEPENDENCIES WORKING"

def summaryMsg : String := "🎉 All packages and stdlib modules working!"

/-- `results['packages']` as a dict. -/
def pkgsOf (r : List (String × J)) : List (String × J) :=
  match dget r "packages" with
  | some (J.obj d) => d
  | _ => []

/-- `sum(1 for p in results['packages'].values() if p.get('installed') == '✅')`. -/
def countWorking (l : List (String × J)) : ℕ :=
  (l.filter (fun p => isCheck (pGet p.2 "installed"))).length

/-- `verify_dependencies()` (lines 9-104), as a function of the
ambient inputs: build the initial dict, run the three guarded
sections, then attach the summary. -/
def verify_dependencies (amb : Ambient) : List (String × J) :=
  let r0 : List (String × J) :=
    [("status", J.s statusMsg), ("packages", J.obj []), ("tests", J.obj [])]
  let r1 := dsetIn r0 "packages" "requests" (tryJ (stepA amb) errRecP)
  let r2 := dsetIn r1 "packages" "dateutil" (tryJ (stepB amb) errRecP)
  let r3 := dsetIn r2 "tests" "stdlib" (tryJ (stepC amb) errRecT)
  dset r3 "summary"
    (J.obj [("message", J.s summaryMsg),
            ("timestamp", J.s (isoformat amb.nowS)),
            ("packagesWorking", J.i (countWorking (pkgsOf r3)))])

/-- `results['tests']` as a dict. -/
def testsOf (r : List (String × J)) : List (String × J) :=
  match dget r "tests" with
  | some (J.obj d) => d
  | _ => []

/-- `results['summary']` as a dict. -/
def summaryOf (r : List (String × J)) : List (String × J) :=
  match dget r "summary" with
  | some (J.obj d) => d
  | _ => []

/-- A well-formed GitHub response body, used as a witness input. -/
def wBody : J :=
  J.obj [("name", J.s "n8n"), ("stargazers_count", J.i 1234567),
         ("forks_count", J.i 89012), ("language", J.s "TypeScript")]

/-- A witness ambient in which every section succeeds. -/
def wAmbOk : Ambient :=
  { reqVersion := "2.31.0", aExc := none,
    net := .ok ⟨200, .ok wBody⟩,
    bExc := none,
    nowB1 := ⟨2025, 10, 22, 14, 30, 5, 123456, none⟩,
    nowB2 := ⟨2025, 10, 22, 14, 30, 5, 123500, none⟩,
    nowB3 := ⟨2025, 10, 22, 14, 30, 5, 123600, none⟩,
    cExc := none, r1 := 41, r2 := 7,
    nowC1 := ⟨2025, 10, 22, 14, 30, 5, 200000, none⟩,
    nowC2 := ⟨2025, 10, 22, 14, 30, 5, 200100, none⟩,
    nowS := ⟨2025, 10, 22, 14, 30, 5, 300000, none⟩ }

/-- The `requests` record `verify_dependencies` builds on `wAmbOk`. -/
def wReq : J := mkReqRec "2.31.0" 200 (J.s "n8n") "1,234,567" "89,012" (J.s "TypeScript")

/-- The `dateutil` record `verify_dependencies` builds on `wAmbOk`. -/
def wDate : J :=
  mkDateRec "2025-10-22T14:30:00+00:00" "2025-10-22"
    "2025-10-22T14:30:05.123600" "2026-02-06" "2025-09-22"

/-- The stdlib record `verify_dependencies` builds on `wAmbOk`. -/
def wStd : J :=
  mkStdRec (litD 7854 100) (litD 12 1) (litD 31416 10000) 42 "banana"
    (dumps testData) testData "2025-10-22T14:30:05.200000" "2025-10-22"

/-- A witness ambient in which every section raises. -/
def wAmbFail : Ambient :=
  { wAmbOk with aExc := some "boom", bExc := some "boom", cExc := some "boom" }

/-- A witness ambient in which only the network call raises
(a simulated timeout). -/
def wAmbNetFail : Ambient :=
  { wAmbOk with net := .error "HTTPSConnectionPool: Read timed out. (read timeout=5)" }

/-- The report in normal form: the skeleton of the dict is fixed, only
the three section records vary. -/
theorem verify_eq (amb : Ambient) :
    verify_dependencies amb =
      [("status", J.s statusMsg),
       ("packages", J.obj [("requests", tryJ (stepA amb) errRecP),
                           ("dateutil", tryJ (stepB amb) errRecP)]),
       ("tests", J.obj [("stdlib", tryJ (stepC amb) errRecT)]),
       ("summary", J.obj [("message", J.s summaryMsg),
                          ("timestamp", J.s (isoformat amb.nowS)),
                          ("packagesWorking",
                           J.i (countWorking [("requests", tryJ (stepA amb) errRecP),
                                              ("dateutil", tryJ (stepB amb) errRecP)]))])] := rfl

/-- The date section with its two constant parses evaluated. -/
theorem stepB_eq (amb : Ambient) :
    stepB amb =
      match amb.bExc with
      | some m => .error m
      | none =>
        match relAdd amb.nowB1 3 15 with
        | .error m => .error m
        | .ok fut =>
          match addDays amb.nowB2 (-30) with
          | .error m => .error m
          | .ok past =>
            .ok (mkDateRec "2025-10-22T14:30:00+00:00" "2025-10-22"
                  (isoformat amb.nowB3) (strftimeYMD fut) (strftimeYMD past)) := by
  unfold stepB
  cases amb.bExc <;> rfl

/-- The stdlib section with its constant subcomputations evaluated:
it raises only through an injected runtime exception. -/
theorem stepC_eq (amb : Ambient) :
    stepC amb =
      match amb.cExc with
      | some m => .error m
      | none =>
        .ok (mkStdRec (pyRound (dmul piD (mathPowInt 5 2)) 2) (mathSqrtInt 144)
              (pyRound piD 4) (randint 1 100 amb.r1)
              (pychoice ["apple", "banana", "cherry"] amb.r2)
              (dumps testData) testData
              (isoformat amb.nowC1) (strftimeYMD amb.nowC2)) := by
  unfold stepC
  cases amb.cExc <;> rfl

/-- A successful network section always yields a `mkReqRec` record. -/
theorem stepA_ok_shape (amb : Ambient) (a : J) (h : stepA amb = .ok a) :
    ∃ code nm stars forks lang, a = mkReqRec amb.reqVersion code nm stars forks lang := by
  unfold stepA at h
  repeat' split at h
  all_goals try exact Except.noConfusion h
  injection h with h2
  exact ⟨_, _, _, _, _, h2.symm⟩

/-- A successful date section always yields a `mkDateRec` record whose
parse fields are the two constant strings. -/
theorem stepB_ok_shape (amb : Ambient) (b : J) (h : stepB amb = .ok b) :
    ∃ fut past, relAdd amb.nowB1 3 15 = .ok fut ∧ addDays amb.nowB2 (-30) = .ok past ∧
      b = mkDateRec "2025-10-22T14:30:00+00:00" "2025-10-22"
            (isoformat amb.nowB3) (strftimeYMD fut) (strftimeYMD past) := by
  rw [stepB_eq] at h
  split at h
  · exact Except.noConfusion h
  · split at h
    · exact Except.noConfusion h
    · rename_i fut hfut
      split at h
      · exact Except.noConfusion h
      · rename_i past hpast
        injection h with h2
        exact ⟨fut, past, hfut, hpast, h2.symm⟩

/-- A successful stdlib section yields exactly one record, determined
by the random draws and the two clock readings. -/
theorem stepC_ok_shape (amb : Ambient) (c : J) (h : stepC amb = .ok c) :
    c = mkStdRec (pyRound (dmul piD (mathPowInt 5 2)) 2) (mathSqrtInt 144)
          (pyRound piD 4) (randint 1 100 amb.r1)
          (pychoice ["apple", "banana", "cherry"] amb.r2)
          (dumps testData) testData
          (isoformat amb.nowC1) (strftimeYMD amb.nowC2) := by
  rw [stepC_eq] at h
  split at h
  · exact Except.noConfusion h
  · injection h with h2
    exact h2.symm

/-- The date section reads only its own exception slot and its three
clock readings. -/
theorem stepB_frame (a1 a2 : Ambient) (h1 : a2.bExc = a1.bExc)
    (h2 : a2.nowB1 = a1.nowB1) (h3 : a2.nowB2 = a1.nowB2) (h4 : a2.nowB3 = a1.nowB3) :
    stepB a2 = stepB a1 := by
  rw [stepB_eq a2, stepB_eq a1, h1, h2, h3, h4]

/-- The stdlib section reads only its own exception slot, the two
random draws and its two clock readings. -/
theorem stepC_frame (a1 a2 : Ambient) (h1 : a2.cExc = a1.cExc)
    (h2 : a2.r1 = a1.r1) (h3 : a2.r2 = a1.r2)
    (h4 : a2.nowC1 = a1.nowC1) (h5 : a2.nowC2 = a1.nowC2) :
    stepC a2 = stepC a1 := by
  rw [stepC_eq a2, stepC_eq a1, h1, h2, h3, h4, h5]

/-- C1: for every outcome, the report contains exactly the four
top-level keys `status`, `packages`, `tests`, `summary` in that order,
`packages` contains exactly the `requests` (http-client) and
`dateutil` (date-library) entries, and `status` is the one fixed
constant string. -/
theorem c1_report_shape (amb : Ambient) :
    keys (verify_dependencies amb) = ["status", "packages", "tests", "summary"] ∧
    keys (pkgsOf (verify_dependencies amb)) = ["requests", "dateutil"] ∧
    dget (verify_dependencies amb) "status" = some (J.s "✅ ALL DEPENDENCIES WORKING") :=
  ⟨rfl, rfl, rfl⟩

/-- C2: no exception escapes `verify_dependencies`: whichever sections
raise, the raising section's record becomes the inline error record
(`installed: '❌'` for the two package sections, no flag for the
stdlib section), and the summary step still completes. -/
theorem c2_no_escape (amb : Ambient) (m : String) :
    (stepA amb = .error m →
      dget (pkgsOf (verify_dependencies amb)) "requests" =
        some (J.obj [("error", J.s m), ("installed", J.s "❌")])) ∧
    (stepB amb = .error m →
      dget (pkgsOf (verify_dependencies amb)) "dateutil" =
        some (J.obj [("error", J.s m), ("installed", J.s "❌")])) ∧
    (stepC amb = .error m →
      dget (testsOf (verify_dependencies amb)) "stdlib" =
        some (J.obj [("error", J.s m)])) ∧
    (∃ n : ℕ, dget (verify_dependencies amb) "summary" =
      some (J.obj [("message", J.s summaryMsg),
                   ("timestamp", J.s (isoformat amb.nowS)),
                   ("packagesWorking", J.i n)])) := by
  refine ⟨fun h => ?_, fun h => ?_, fun h => ?_, ⟨_, rfl⟩⟩
  · rw [verify_eq, h]; rfl
  · rw [verify_eq, h]; rfl
  · rw [verify_eq, h]; rfl

/-- C2 witness: all three sections raising `"boom"` at once. -/
theorem c2_no_escape_witness :
    dget (pkgsOf (verify_dependencies wAmbFail)) "requests" =
      some (J.obj [("error", J.s "boom"), ("installed", J.s "❌")]) ∧
    dget (pkgsOf (verify_dependencies wAmbFail)) "dateutil" =
      some (J.obj [("error", J.s "boom"), ("installed", J.s "❌")]) ∧
    dget (testsOf (verify_dependencies wAmbFail)) "stdlib" =
      some (J.obj [("error", J.s "boom")]) ∧
    (∃ n : ℕ, dget (verify_dependencies wAmbFail) "summary" =
      some (J.obj [("message", J.s summaryMsg),
                   ("timestamp", J.s (isoformat wAmbFail.nowS)),
                   ("packagesWorking", J.i n)])) := by
  obtain ⟨h1, h2, h3, h4⟩ := c2_no_escape wAmbFail "boom"
  exact ⟨h1 rfl, h2 rfl, h3 rfl, h4⟩

/-- C3: when all three sections succeed, both package entries carry
the success flag `'✅'`, the stdlib record has no `error` key, and
`summary.packagesWorking` is 2. -/
theorem c3_total_success (amb : Ambient) (a b c : J)
    (hA : stepA amb = .ok a) (hB : stepB amb = .ok b) (hC : stepC amb = .ok c) :
    dget (pkgsOf (verify_dependencies amb)) "requests" = some a ∧
    pGet a "installed" = some (J.s "✅") ∧
    dget (pkgsOf (verify_dependencies amb)) "dateutil" = some b ∧
    pGet b "installed" = some (J.s "✅") ∧
    dget (testsOf (verify_dependencies amb)) "stdlib" = some c ∧
    pGet c "error" = none ∧
    dget (summaryOf (verify_dependencies amb)) "packagesWorking" = some (J.i 2) := by
  obtain ⟨code, nm, st, fk, lg, ha⟩ := stepA_ok_shape amb a hA
  obtain ⟨fut, past, _, _, hb⟩ := stepB_ok_shape amb b hB
  have hc := stepC_ok_shape amb c hC
  subst ha hb hc
  refine ⟨?_, rfl, ?_, rfl, ?_, rfl, ?_⟩
  · rw [verify_eq, hA]; rfl
  · rw [verify_eq, hB]; rfl
  · rw [verify_eq, hC]; rfl
  · rw [verify_eq, hA, hB]; rfl

set_option maxRecDepth 40000 in
/-- C3 witness: a concrete run in which every section succeeds. -/
theorem c3_total_success_witness :
    dget (pkgsOf (verify_dependencies wAmbOk)) "requests" = some wReq ∧
    pGet wReq "installed" = some (J.s "✅") ∧
    dget (pkgsOf (verify_dependencies wAmbOk)) "dateutil" = some wDate ∧
    pGet wDate "installed" = some (J.s "✅") ∧
    dget (testsOf (verify_dependencies wAmbOk)) "stdlib" = some wStd ∧
    pGet wStd "error" = none ∧
    dget (summaryOf (verify_dependencies wAmbOk)) "packagesWorking" = some (J.i 2) :=
  c3_total_success wAmbOk wReq wDate wStd rfl rfl rfl

/-- C4: when the network section raises with message `m` while the
other two sections succeed, the `requests` entry is exactly the error
record for `m`, the `dateutil` and `stdlib` records are the same full
success records as in any run with the same date/stdlib inputs, and
`summary.packagesWorking` is 1. -/
theorem c4_network_isolation (amb : Ambient) (m : String) (b c : J)
    (hA : stepA amb = .error m) (hB : stepB amb = .ok b) (hC : stepC amb = .ok c) :
    dget (pkgsOf (verify_dependencies amb)) "requests" =
      some (J.obj [("error", J.s m), ("installed", J.s "❌")]) ∧
    dget (pkgsOf (verify_dependencies amb)) "dateutil" = some b ∧
    dget (testsOf (verify_dependencies amb)) "stdlib" = some c ∧
    (∀ amb2 : Ambient, amb2.bExc = amb.bExc → amb2.nowB1 = amb.nowB1 →
      amb2.nowB2 = amb.nowB2 → amb2.nowB3 = amb.nowB3 →
      amb2.cExc = amb.cExc → amb2.r1 = amb.r1 → amb2.r2 = amb.r2 →
      amb2.nowC1 = amb.nowC1 → amb2.nowC2 = amb.nowC2 →
      dget (pkgsOf (verify_dependencies amb2)) "dateutil" = some b ∧
      dget (testsOf (verify_dependencies amb2)) "stdlib" = some c) ∧
    dget (summaryOf (verify_dependencies amb)) "packagesWorking" = some (J.i 1) := by
  obtain ⟨fut, past, _, _, hb⟩ := stepB_ok_shape amb b hB
  have hc := stepC_ok_shape amb c hC
  refine ⟨?_, ?_, ?_, fun amb2 e1 e2 e3 e4 e5 e6 e7 e8 e9 => ⟨?_, ?_⟩, ?_⟩
  · rw [verify_eq, hA]; rfl
  · rw [verify_eq, hB]; rfl
  · rw [verify_eq, hC]; rfl
  · rw [verify_eq, stepB_frame amb amb2 e1 e2 e3 e4, hB]; rfl
  · rw [verify_eq, stepC_frame amb amb2 e5 e6 e7 e8 e9, hC]; rfl
  · subst hb
    rw [verify_eq, hA, hB]; rfl

set_option maxRecDepth 40000 in
/-- C4 witness: a concrete run in which only the network call raises
(a simulated read timeout). -/
theorem c4_network_isolation_witness :
    dget (pkgsOf (verify_dependencies wAmbNetFail)) "requests" =
      some (J.obj [("error", J.s "HTTPSConnectionPool: Read timed out. (read timeout=5)"),
                   ("installed", J.s "❌")]) ∧
    dget (pkgsOf (verify_dependencies wAmbNetFail)) "dateutil" = some wDate ∧
    dget (testsOf (verify_dependencies wAmbNetFail)) "stdlib" = some wStd ∧
    (∀ amb2 : Ambient, amb2.bExc = wAmbNetFail.bExc → amb2.nowB1 = wAmbNetFail.nowB1 →
      amb2.nowB2 = wAmbNetFail.nowB2 → amb2.nowB3 = wAmbNetFail.nowB3 →
      amb2.cExc = wAmbNetFail.cExc → amb2.r1 = wAmbNetFail.r1 → amb2.r2 = wAmbNetFail.r2 →
      amb2.nowC1 = wAmbNetFail.nowC1 → amb2.nowC2 = wAmbNetFail.nowC2 →
      dget (pkgsOf (verify_dependencies amb2)) "dateutil" = some wDate ∧
      dget (testsOf (verify_dependencies amb2)) "stdlib" = some wStd) ∧
    dget (summaryOf (verify_dependencies wAmbNetFail)) "packagesWorking" = some (J.i 1) :=
  c4_network_isolation wAmbNetFail
    "HTTPSConnectionPool: Read timed out. (read timeout=5)" wDate wStd rfl rfl rfl

/-- The summary's `packagesWorking` field is the count over the two
package entries, whatever they are. -/
theorem summary_pW (amb : Ambient) :
    dget (summaryOf (verify_dependencies amb)) "packagesWorking" =
      some (J.i (countWorking [("requests", tryJ (stepA amb) errRecP),
                               ("dateutil", tryJ (stepB amb) errRecP)])) := rfl

/-- The network section reads only the client version, its own
exception slot and the network outcome. -/
theorem stepA_frame (a1 a2 : Ambient) (h0 : a2.reqVersion = a1.reqVersion)
    (h1 : a2.aExc = a1.aExc) (h2 : a2.net = a1.net) : stepA a2 = stepA a1 := by
  unfold stepA
  rw [h0, h1, h2]

/-- C5: `summary.packagesWorking` equals the number of `packages`
entries whose `installed` flag is the success value; that number never
exceeds 2, and it is unchanged under every replacement of the
stdlib-section inputs (Step C has no effect on it). -/
theorem c5_summary_count (amb : Ambient) :
    dget (summaryOf (verify_dependencies amb)) "packagesWorking" =
      some (J.i ((pkgsOf (verify_dependencies amb)).countP
        (fun p => isCheck (pGet p.2 "installed")))) ∧
    (pkgsOf (verify_dependencies amb)).countP (fun p => isCheck (pGet p.2 "installed")) ≤ 2 ∧
    (∀ (x : Option String) (y z : ℕ) (d1 d2 : DT),
      dget (summaryOf (verify_dependencies
          { amb with cExc := x, r1 := y, r2 := z, nowC1 := d1, nowC2 := d2 }))
        "packagesWorking" =
      dget (summaryOf (verify_dependencies amb)) "packagesWorking") := by
  refine ⟨?_, ?_, ?_⟩
  · have key : countWorking (pkgsOf (verify_dependencies amb)) =
        (pkgsOf (verify_dependencies amb)).countP (fun p => isCheck (pGet p.2 "installed")) :=
      (List.countP_eq_length_filter _ _).symm
    rw [← key]
    rfl
  · have h2 : ∀ u v : J,
        List.countP (fun p => isCheck (pGet p.2 "installed"))
          [("requests", u), ("dateutil", v)] ≤ 2 := by
      intro u v
      simp [List.countP_cons]
      split_ifs <;> simp
    exact h2 (tryJ (stepA amb) errRecP) (tryJ (stepB amb) errRecP)
  · intro x y z d1 d2
    rw [summary_pW, summary_pW,
      stepA_frame amb { amb with cExc := x, r1 := y, r2 := z, nowC1 := d1, nowC2 := d2 }
        rfl rfl rfl,
      stepB_frame amb { amb with cExc := x, r1 := y, r2 := z, nowC1 := d1, nowC2 := d2 }
        rfl rfl rfl rfl]

/-- C6: in every successful date section, parsing the fixed ISO string
yields the UTC timestamp `2025-10-22T14:30:00+00:00` and parsing the
fixed natural-language string yields `2025-10-22`, both as the
`parsedDates` fields of the record. -/
theorem c6_date_parsing (amb : Ambient) (b : J) (h : stepB amb = .ok b) :
    (parseDU "2025-10-22T14:30:00Z").map isoformat = .ok "2025-10-22T14:30:00+00:00" ∧
    (parseDU "October 22, 2025").map strftimeYMD = .ok "2025-10-22" ∧
    (∃ pd, pGet b "parsedDates" = some pd ∧
      pGet pd "iso" = some (J.s "2025-10-22T14:30:00+00:00") ∧
      pGet pd "natural" = some (J.s "2025-10-22")) := by
  obtain ⟨fut, past, _, _, hb⟩ := stepB_ok_shape amb b h
  subst hb
  exact ⟨rfl, rfl, _, rfl, rfl, rfl⟩

set_option maxRecDepth 40000 in
/-- C6 witness. -/
theorem c6_date_parsing_witness :
    (parseDU "2025-10-22T14:30:00Z").map isoformat = .ok "2025-10-22T14:30:00+00:00" ∧
    (parseDU "October 22, 2025").map strftimeYMD = .ok "2025-10-22" ∧
    (∃ pd, pGet wDate "parsedDates" = some pd ∧
      pGet pd "iso" = some (J.s "2025-10-22T14:30:00+00:00") ∧
      pGet pd "natural" = some (J.s "2025-10-22")) :=
  c6_date_parsing wAmbOk wDate rfl

set_option maxRecDepth 40000 in
/-- C7: in every successful stdlib section, the math sub-record holds
exactly the binary64 values of the literals 78.54 (circle area),
12.0 (square root of 144) and 3.1416 (pi to 4 decimals). -/
theorem c7_math_values (amb : Ambient) (c : J) (h : stepC amb = .ok c) :
    ∃ ma, pGet c "math" = some ma ∧
      pGet ma "circleArea" = some (J.f (litD 7854 100)) ∧
      pGet ma "sqrt144" = some (J.f (litD 12 1)) ∧
      pGet ma "piValue" = some (J.f (litD 31416 10000)) := by
  have hc := stepC_ok_shape amb c h
  subst hc
  exact ⟨_, rfl, rfl, rfl, rfl⟩

set_option maxRecDepth 40000 in
/-- C7 witness. -/
theorem c7_math_values_witness :
    ∃ ma, pGet wStd "math" = some ma ∧
      pGet ma "circleArea" = some (J.f (litD 7854 100)) ∧
      pGet ma "sqrt144" = some (J.f (litD 12 1)) ∧
      pGet ma "piValue" = some (J.f (litD 31416 10000)) :=
  c7_math_values wAmbOk wStd rfl

/-- C8: in every successful stdlib section and for every draw of the
random source, `randomNumber` is an integer in [1, 100] and
`randomChoice` is one of the three fixed strings. -/
theorem c8_random_bounds (amb : Ambient) (c : J) (h : stepC amb = .ok c) :
    ∃ ra n rc, pGet c "random" = some ra ∧
      pGet ra "randomNumber" = some (J.i n) ∧ 1 ≤ n ∧ n ≤ 100 ∧
      pGet ra "randomChoice" = some (J.s rc) ∧
      (rc = "apple" ∨ rc = "banana" ∨ rc = "cherry") := by
  have hc := stepC_ok_shape amb c h
  subst hc
  refine ⟨_, randint 1 100 amb.r1, pychoice ["apple", "banana", "cherry"] amb.r2,
    rfl, rfl, ?_, ?_, rfl, ?_⟩
  · have h0 : (0 : ℤ) ≤ (amb.r1 : ℤ) % 100 := Int.emod_nonneg _ (by norm_num)
    unfold randint
    omega
  · have h0 : ((amb.r1 : ℤ) % 100) < 100 := Int.emod_lt_of_pos _ (by norm_num)
    unfold randint
    omega
  · have h3 : amb.r2 % 3 = 0 ∨ amb.r2 % 3 = 1 ∨ amb.r2 % 3 = 2 := by omega
    rcases h3 with h3 | h3 | h3
    · exact Or.inl (by simp [pychoice, h3])
    · exact Or.inr (Or.inl (by simp [pychoice, h3]))
    · exact Or.inr (Or.inr (by simp [pychoice, h3]))

set_option maxRecDepth 40000 in
/-- C8 witness. -/
theorem c8_random_bounds_witness :
    ∃ ra n rc, pGet wStd "random" = some ra ∧
      pGet ra "randomNumber" = some (J.i n) ∧ 1 ≤ n ∧ n ≤ 100 ∧
      pGet ra "randomChoice" = some (J.s rc) ∧
      (rc = "apple" ∨ rc = "banana" ∨ rc = "cherry") :=
  c8_random_bounds wAmbOk wStd rfl

/-- C9: serialising the fixed object and parsing the result back
yields the object again, and in every successful stdlib section the
`json` sub-record holds exactly that serialised string and that
deserialised object. -/
theorem c9_json_roundtrip (amb : Ambient) (c : J) (h : stepC amb = .ok c) :
    loads (dumps testData) = .ok testData ∧
    (∃ jo, pGet c "json" = some jo ∧
      pGet jo "serialized" = some (J.s (dumps testData)) ∧
      pGet jo "deserialized" = some testData) := by
  have hc := stepC_ok_shape amb c h
  subst hc
  exact ⟨rfl, _, rfl, rfl, rfl⟩

set_option maxRecDepth 40000 in
/-- C9 witness. -/
theorem c9_json_roundtrip_witness :
    loads (dumps testData) = .ok testData ∧
    (∃ jo, pGet wStd "json" = some jo ∧
      pGet jo "serialized" = some (J.s (dumps testData)) ∧
      pGet jo "deserialized" = some testData) :=
  c9_json_roundtrip wAmbOk wStd rfl

/-- C10: two calls that observe the same client version, the same
network outcome (response or exception), the same injected section
exceptions, the same clock readings and the same random draws return
equal reports: the result is a pure function of these ambient inputs. -/
theorem c10_determinism (a1 a2 : Ambient)
    (h1 : a1.reqVersion = a2.reqVersion) (h2 : a1.aExc = a2.aExc) (h3 : a1.net = a2.net)
    (h4 : a1.bExc = a2.bExc) (h5 : a1.nowB1 = a2.nowB1) (h6 : a1.nowB2 = a2.nowB2)
    (h7 : a1.nowB3 = a2.nowB3) (h8 : a1.cExc = a2.cExc) (h9 : a1.r1 = a2.r1)
    (h10 : a1.r2 = a2.r2) (h11 : a1.nowC1 = a2.nowC1) (h12 : a1.nowC2 = a2.nowC2)
    (h13 : a1.nowS = a2.nowS) :
    verify_dependencies a1 = verify_dependencies a2 := by
  have h : a1 = a2 := by
    cases a1
    cases a2
    simp_all
  rw [h]

/-- C10 witness: two syntactically different but fieldwise equal
ambient records. -/
theorem c10_determinism_witness :
    verify_dependencies { wAmbOk with r1 := 41 } = verify_dependencies wAmbOk :=
  c10_determinism { wAmbOk with r1 := 41 } wAmbOk
    rfl rfl rfl rfl rfl rfl rfl rfl rfl rfl rfl rfl rfl
